import Mathlib

/-!
Verification development for the strawberry-django-rls repository.

The development shallowly embeds the row-level-security (RLS) policy
generation (django_rls/utils.py and the makemigrations command), the
context-propagation middleware (django_rls/middleware.py) and the startup
settings validation (django_rls/settings.py), and proves the behavioural
properties stated about them.

Two modules of the package, django_rls/constants.py and
django_rls/settings_type.py, are not among the sources at hand; the
definitions taken from them are modelled from the specification and are
marked as such in their doc comments.
-/

/-- Single-quote character, written with a hex escape, used to build the
generated SQL text. -/
def sqt : String := "\x27"

/-- Modelled from the spec: django_rls/constants.py (not among the sources)
defines the RlsWildcard enumeration with two reserved sentinel literals,
one meaning no access (NONE) and one meaning unrestricted access (ALL),
both distinct from any legitimate field value; the middleware source refers
to the string carried by a wildcard as its value, e.g. SPECIAL_CASE_ALL. -/
inductive RlsWildcard where
  | NONE
  | ALL
deriving DecidableEq, Repr

/-- Modelled from the spec: the reserved sentinel literal carried by each
wildcard member (the .value attribute in Python). -/
def RlsWildcard.value : RlsWildcard → String
  | .NONE => "SPECIAL_CASE_NONE"
  | .ALL => "SPECIAL_CASE_ALL"

/-- Modelled from the spec: django_rls/constants.py declares RLSValue, the
type of values the context resolver may return per protected field: a
wildcard sentinel, the Python None, a UUID (represented here by its
canonical string form), or a plain value (text). -/
inductive RLSValue where
  | wildcard (w : RlsWildcard)
  | null
  | uuidVal (s : String)
  | strVal (s : String)
deriving DecidableEq, Repr

/-- Modelled from the spec: django_rls/settings_type.py (not among the
sources) declares the DjangoRLSSettings configuration object: tenant-scoped
app list, ordered candidate protected-field names, session-namespace
prefix (default "rls"; the source field name is SESSION_NAMESPACE plus
underscore PREFIX, shortened here to SESSION_NS), and the migration-user
credential pair with its enable flag. Defaults are safe: no tenant apps,
no fields, no migration user. The per-request bypass predicate and context
resolver are passed to the middleware model directly as their results. -/
structure DjangoRLSSettings where
  TENANT_APPS : List String := []
  RLS_FIELDS : List String := []
  SESSION_NS : String := "rls"
  USE_DB_MIGRATION_USER : Bool := false
  MIGRATION_USER : Option String := none
  MIGRATION_PASSWORD : Option String := none
deriving DecidableEq, Repr

/-- Field type table of django_rls/utils.py (FIELD_TYPE_MAPPING): Django
internal field types mapped to PostgreSQL scalar types. -/
def FIELD_TYPE_MAPPING : List (String × String) :=
  [("IntegerField", "int"),
   ("BigIntegerField", "bigint"),
   ("UUIDField", "uuid"),
   ("CharField", "text"),
   ("BooleanField", "boolean")]

/-- Structured description of one per-field sub-clause of the policy
predicate: session-namespace prefix, field name, and the SQL type the
session variable is cast to. -/
structure FieldCase where
  pfx : String
  field : String
  sqlType : String
deriving DecidableEq, Repr

/-- Text of the current_setting call with missing_ok = true, as generated
for the first WHEN arm in utils.build_rls_using_clause. -/
def FieldCase.settingLenient (c : FieldCase) : String :=
  "current_setting(" ++ sqt ++ c.pfx ++ "." ++ c.field ++ sqt ++ ", true)"

/-- Text of the current_setting call without missing_ok, as generated for
the later arms in utils.build_rls_using_clause. -/
def FieldCase.settingStrict (c : FieldCase) : String :=
  "current_setting(" ++ sqt ++ c.pfx ++ "." ++ c.field ++ sqt ++ ")"

/-- Exact text of the per-field sub-clause built by the loop body of
utils.build_rls_using_clause (utils.py lines 62-79). -/
def FieldCase.render (c : FieldCase) : String :=
  "(\n" ++
  "            CASE\n" ++
  "                WHEN " ++ c.settingLenient ++ " IS NULL THEN FALSE\n" ++
  "                WHEN " ++ c.settingStrict ++ " = " ++ sqt ++ sqt ++ " THEN FALSE\n" ++
  "                WHEN " ++ c.settingStrict ++ " = " ++ sqt ++ RlsWildcard.NONE.value ++ sqt
    ++ " THEN FALSE\n" ++
  "                WHEN " ++ c.settingStrict ++ " = " ++ sqt ++ RlsWildcard.ALL.value ++ sqt
    ++ " THEN TRUE\n" ++
  "                ELSE " ++ c.field ++ " = " ++ c.settingStrict ++ "::" ++ c.sqlType ++ "\n" ++
  "            END\n" ++
  "        )"

/-- Embedding of utils.build_rls_using_clause: one sub-clause per field in
the given order, joined with " AND" and a newline; the SQL type of a field
comes from the field_types dictionary with default "text". -/
def build_rls_using_clause (fields : List String) (field_types : List (String × String))
    (pfx : String) : String :=
  String.intercalate " AND\n"
    (fields.map (fun f => (FieldCase.mk pfx f ((field_types.lookup f).getD "text")).render))

/-- SQL CASE semantics of the rendered sub-clause FieldCase.render: the
session map gives the current value of each session variable (none = unset,
which is what current_setting with missing_ok returns as SQL NULL), and
castEq v tells whether the row column value equals v cast to the field SQL
type. The WHEN arms are evaluated top to bottom exactly as they appear in
the generated text. -/
def FieldCase.eval (c : FieldCase) (session : String → Option String)
    (castEq : String → Bool) : Bool :=
  match session (c.pfx ++ "." ++ c.field) with
  | none => false
  | some v =>
    if v = "" then false
    else if v = RlsWildcard.NONE.value then false
    else if v = RlsWildcard.ALL.value then true
    else castEq v

/-- One cursor.execute call issued by the middleware: the SQL statement
text and the parameter list (here always a single parameter, the value
bound to the %s placeholder). -/
structure ExecCall where
  stmt : String
  params : List String
deriving DecidableEq, Repr

/-- Observable outcome of RLSMiddleware.process_request: the sequence of
cursor.execute calls, whether the user-supplied context resolver was
consulted, and the warning (if any) naming the unexpected fields the
resolver returned. -/
structure MiddlewareResult where
  executed : List ExecCall
  resolverCalled : Bool
  warnedUnexpected : Option (List String)
deriving DecidableEq, Repr

/-- Normalisation of a resolver value to the text bound to the session
variable (middleware.py lines 57-67): a wildcard passes through as its
sentinel literal, the Python None becomes the NONE sentinel, a UUID is
stringified, and any other value is passed as is. -/
def dbSafeValue : RLSValue → String
  | .wildcard w => w.value
  | .null => RlsWildcard.NONE.value
  | .uuidVal s => s
  | .strVal s => s

/-- Statement text of one session-variable assignment, exactly as built by
middleware.py line 70: SET {prefix}.{field} = %s, with the value passed as
a bound parameter, never interpolated into the text. -/
def setStmt (pfx field : String) : String :=
  "SET " ++ pfx ++ "." ++ field ++ " = %s"

/-- Embedding of RLSMiddleware.process_request (middleware.py). Instead of
the request object and the configured callables it receives the bypass
predicate result and the mapping returned by the context resolver (as an
association list in mapping order, the iteration order of a Python dict).
On a non-PostgreSQL backend the middleware returns before touching the
connection. Otherwise: bypass true builds a context assigning the ALL
wildcard to every configured field without calling the resolver; bypass
false uses the resolver output. Fields outside RLS_FIELDS are collected
into a warning and skipped by the loop; each remaining field causes one
parameterized cursor.execute call. -/
def process_request (s : DjangoRLSSettings) (vendor : String) (bypassResult : Bool)
    (resolverOutput : List (String × RLSValue)) : MiddlewareResult :=
  if vendor ≠ "postgresql" then ⟨[], false, none⟩
  else
    let rls_context : List (String × RLSValue) :=
      if bypassResult then
        s.RLS_FIELDS.map (fun f => (f, RLSValue.wildcard RlsWildcard.ALL))
      else resolverOutput
    let unexpected : List String :=
      (rls_context.map Prod.fst).filter (fun f => decide (f ∉ s.RLS_FIELDS))
    let warned : Option (List String) :=
      if unexpected.isEmpty then none else some unexpected
    let executed : List ExecCall :=
      (rls_context.filter (fun p => decide (p.1 ∈ s.RLS_FIELDS))).map
        (fun p => ExecCall.mk (setStmt s.SESSION_NS p.1) [dbSafeValue p.2])
    ⟨executed, !bypassResult, warned⟩

/-- Field metadata carried by a create-table operation: the Django internal
type of the field, as returned by get_internal_type. -/
structure FieldDef where
  internalType : String
deriving DecidableEq, Repr

/-- Migration operations as dispatched on by the makemigrations command:
CreateModel with its name, field list and optional db_table option; RunSQL
with forward and reverse SQL; and any other operation kind (opaque tag). -/
inductive Operation where
  | createModel (name : String) (fields : List (String × FieldDef)) (dbTable : Option String)
  | runSQL (sql : String) (reverseSql : String)
  | other (tag : Nat)
deriving DecidableEq, Repr

/-- The available_fields computation of Command._add_rls_to_create_model
(makemigrations.py lines 54-57): the configured RLS_FIELDS that occur among
the new table field names, kept in configured order. -/
def availableFields (s : DjangoRLSSettings) (fields : List (String × FieldDef)) : List String :=
  s.RLS_FIELDS.filter (fun f => decide (f ∈ fields.map Prod.fst))

/-- SQL type of one selected field (makemigrations.py lines 84-89): look up
the field instance internal type in FIELD_TYPE_MAPPING, default "text". -/
def fieldSqlType (fields : List (String × FieldDef)) (f : String) : String :=
  (FIELD_TYPE_MAPPING.lookup ((fields.lookup f).getD ⟨""⟩).internalType).getD "text"

/-- The field_types dictionary built for the selected fields
(makemigrations.py lines 85-89). -/
def fieldTypes (fields : List (String × FieldDef)) (enforce : List String) :
    List (String × String) :=
  enforce.map (fun f => (f, fieldSqlType fields f))

/-- Protected table name (makemigrations.py lines 96-99): the db_table
option when set to a truthy value, else {app_label}_{model name lowered}. -/
def dbTableName (appLabel modelName : String) (dbTable : Option String) : String :=
  match dbTable with
  | some t => if t = "" then appLabel ++ "_" ++ modelName.toLower else t
  | none => appLabel ++ "_" ++ modelName.toLower

/-- Forward and reverse SQL of one synthesized policy, transcribed from the
sql_lines and reverse_sql_lines literals of Command._add_rls_to_create_model
(makemigrations.py lines 101-116), each list joined with a newline. -/
def rlsPolicySql (db_table usingClause : String) : String × String :=
  let policy_name := db_table ++ "_rls_policy"
  let sql_lines : List String :=
    ["DROP POLICY IF EXISTS \"" ++ policy_name ++ "\" ON \"" ++ db_table ++ "\";",
     "CREATE POLICY \"" ++ policy_name ++ "\" ON \"" ++ db_table ++ "\" FOR ALL USING ("
       ++ usingClause ++ ") WITH CHECK (" ++ usingClause ++ ");",
     "ALTER TABLE \"" ++ db_table ++ "\" ENABLE ROW LEVEL SECURITY;",
     "ALTER TABLE \"" ++ db_table ++ "\" FORCE ROW LEVEL SECURITY;"]
  let reverse_sql_lines : List String :=
    ["ALTER TABLE \"" ++ db_table ++ "\" NO FORCE ROW LEVEL SECURITY;",
     "ALTER TABLE \"" ++ db_table ++ "\" DISABLE ROW LEVEL SECURITY;",
     "DROP POLICY IF EXISTS \"" ++ policy_name ++ "\" ON \"" ++ db_table ++ "\";"]
  (String.intercalate "\n" sql_lines, String.intercalate "\n" reverse_sql_lines)

/-- Embedding of Command._add_rls_to_create_model on the non-interactive
path (enforce_fields = available_fields): returns the RunSQL operation to
insert after the CreateModel, or none when the method returns without
adding one (not a CreateModel, or no candidate field occurs on the model). -/
def mkRlsOp (s : DjangoRLSSettings) (appLabel : String) : Operation → Option Operation
  | .createModel name fields dbTable =>
    let available := availableFields s fields
    if available.isEmpty then none
    else
      let enforce := available
      let usingClause := build_rls_using_clause enforce (fieldTypes fields enforce) s.SESSION_NS
      let sqlPair := rlsPolicySql (dbTableName appLabel name dbTable) usingClause
      some (.runSQL sqlPair.1 sqlPair.2)
  | _ => none

/-- Embedding of the operation loop of Command.inject_rls_operations for
one migration of a tenant app. The Python for loop iterates the operation
list by index while _add_rls_to_create_model inserts the new RunSQL right
after the current CreateModel (located with list.index on the operation
identity); the inserted RunSQL is itself visited on the next iteration and
skipped since it is not a CreateModel, so the loop net effect is this
structural recursion over the original operations. -/
def injectOps (s : DjangoRLSSettings) (appLabel : String) : List Operation → List Operation
  | [] => []
  | op :: rest =>
    match mkRlsOp s appLabel op with
    | some rop => op :: rop :: injectOps s appLabel rest
    | none => op :: injectOps s appLabel rest

/-- Embedding of Command.inject_rls_operations over the whole change set,
one entry per (app label, operations of one migration): apps whose label is
not among the tenant apps are left untouched, as is everything when no
tenant apps are configured. -/
def inject_rls_operations (s : DjangoRLSSettings)
    (changes : List (String × List Operation)) : List (String × List Operation) :=
  if s.TENANT_APPS.isEmpty then changes
  else changes.map (fun c =>
    if c.1 ∈ s.TENANT_APPS then (c.1, injectOps s c.1 c.2) else c)

/-- A Python value possibly bound to the DJANGO_RLS setting: an actual
DjangoRLSSettings instance (always truthy), or a value of any other type,
of which the settings module observes only the truthiness and type name. -/
inductive PyConfigValue where
  | rls (s : DjangoRLSSettings)
  | otherType (truthy : Bool) (typeName : String)
deriving DecidableEq, Repr

/-- Outcome of importing django_rls.settings: the validated settings plus
whether the fallback warning was emitted, or the message of the raised
exception. -/
inductive SettingsOutcome where
  | ok (warned : Bool) (s : DjangoRLSSettings)
  | error (msg : String)
deriving DecidableEq, Repr

/-- Truthiness of the value getattr returns for DJANGO_RLS (default False
when the attribute is absent). -/
def pyTruthy : Option PyConfigValue → Bool
  | none => false
  | some (.rls _) => true
  | some (.otherType t _) => t

/-- Python falsiness of an optional string credential: None or the empty
string. -/
def falsyStr : Option String → Bool
  | none => true
  | some s => s.isEmpty

/-- Embedding of the module level code of django_rls/settings.py: the
walrus-guarded getattr treats an absent or falsy DJANGO_RLS as missing
(warning, defaults); a truthy value of the wrong type raises; then the
migration-user validation raises when USE_DB_MIGRATION_USER is set while
MIGRATION_USER or MIGRATION_PASSWORD is falsy. -/
def django_rls_settings_load (cfg : Option PyConfigValue) : SettingsOutcome :=
  let step1 : SettingsOutcome :=
    if pyTruthy cfg then
      match cfg with
      | some (.rls s) => .ok false s
      | some (.otherType _ tn) =>
        .error ("DJANGO_RLS must be of type DjangoRLSSettings, but got " ++ tn)
      | none => .ok true {}
    else .ok true {}
  match step1 with
  | .error m => .error m
  | .ok w s =>
    if s.USE_DB_MIGRATION_USER && (falsyStr s.MIGRATION_USER || falsyStr s.MIGRATION_PASSWORD)
    then .error "USE_DB_MIGRATION_USER is True, but MIGRATION_USER or MIGRATION_PASSWORD is not set"
    else .ok w s

/-- Statement text of drop-policy-if-exists. -/
def dropPolicySql (policy_name db_table : String) : String :=
  "DROP POLICY IF EXISTS \"" ++ policy_name ++ "\" ON \"" ++ db_table ++ "\";"

/-- Statement text of create-policy covering all command types, with the
predicate used both as USING and as WITH CHECK. -/
def createPolicySql (policy_name db_table usingClause : String) : String :=
  "CREATE POLICY \"" ++ policy_name ++ "\" ON \"" ++ db_table ++ "\" FOR ALL USING ("
    ++ usingClause ++ ") WITH CHECK (" ++ usingClause ++ ");"

/-- Statement text of enable row level security. -/
def enableRlsSql (db_table : String) : String :=
  "ALTER TABLE \"" ++ db_table ++ "\" ENABLE ROW LEVEL SECURITY;"

/-- Statement text of force row level security. -/
def forceRlsSql (db_table : String) : String :=
  "ALTER TABLE \"" ++ db_table ++ "\" FORCE ROW LEVEL SECURITY;"

/-- Statement text of un-force row level security. -/
def noForceRlsSql (db_table : String) : String :=
  "ALTER TABLE \"" ++ db_table ++ "\" NO FORCE ROW LEVEL SECURITY;"

/-- Statement text of disable row level security. -/
def disableRlsSql (db_table : String) : String :=
  "ALTER TABLE \"" ++ db_table ++ "\" DISABLE ROW LEVEL SECURITY;"

/-- Discriminator for SettingsOutcome: whether loading raised. -/
def SettingsOutcome.isError : SettingsOutcome → Bool
  | .error _ => true
  | .ok _ _ => false

/-- Demonstration configuration used by the concrete witnesses: a tenant
app with two candidate protected fields. -/
def sDemo : DjangoRLSSettings :=
  { TENANT_APPS := ["app"], RLS_FIELDS := ["tenant_id", "owner_id"] }

/-- Demonstration field list of a new table: a primary key plus the two
tenant columns. -/
def demoFields : List (String × FieldDef) :=
  [("id", ⟨"BigAutoField"⟩), ("tenant_id", ⟨"IntegerField"⟩), ("owner_id", ⟨"UUIDField"⟩)]

/-- Demonstration create-table operation. -/
def demoOp : Operation := .createModel "Doc" demoFields none

/-- The RunSQL operation synthesized for demoOp. -/
def demoRop : Operation := (mkRlsOp sDemo "app" demoOp).getD (.other 0)

/-- C1: in the built policy predicate, each per-field sub-clause evaluates
its cases in the exact precedence: unset session variable (SQL NULL) gives
false, empty string gives false, the NONE sentinel gives false, the ALL
sentinel gives true, and otherwise the column value is compared against the
session variable cast to the field SQL type; moreover the text this
semantics reads is exactly the sub-clause build_rls_using_clause emits for
the field. -/
theorem rls_subclause_case_precedence (c : FieldCase) (session : String → Option String)
    (castEq : String → Bool) :
    build_rls_using_clause [c.field] [(c.field, c.sqlType)] c.pfx = c.render ∧
    (session (c.pfx ++ "." ++ c.field) = none → c.eval session castEq = false) ∧
    (session (c.pfx ++ "." ++ c.field) = some "" → c.eval session castEq = false) ∧
    (session (c.pfx ++ "." ++ c.field) = some RlsWildcard.NONE.value →
      c.eval session castEq = false) ∧
    (session (c.pfx ++ "." ++ c.field) = some RlsWildcard.ALL.value →
      c.eval session castEq = true) ∧
    (∀ v, session (c.pfx ++ "." ++ c.field) = some v →
      v ≠ "" → v ≠ RlsWildcard.NONE.value → v ≠ RlsWildcard.ALL.value →
      c.eval session castEq = castEq v) := by
  refine ⟨?_, ?_, ?_, ?_, ?_, ?_⟩
  · simp only [build_rls_using_clause, List.map, List.lookup, beq_self_eq_true, Option.getD]
    rfl
  · intro h; simp [FieldCase.eval, h]
  · intro h; simp [FieldCase.eval, h]
  · intro h; simp [FieldCase.eval, h, RlsWildcard.value]
  · intro h; simp [FieldCase.eval, h, RlsWildcard.value]
  · intro v h h1 h2 h3; simp [FieldCase.eval, h, h1, h2, h3]

/-- Witness for C1 at a concrete field, exercising all five cases. -/
theorem rls_subclause_case_precedence_witness :
    (FieldCase.mk "rls" "tenant_id" "int").eval (fun _ => none) (fun _ => true) = false ∧
    (FieldCase.mk "rls" "tenant_id" "int").eval (fun _ => some "") (fun _ => true) = false ∧
    (FieldCase.mk "rls" "tenant_id" "int").eval (fun _ => some RlsWildcard.NONE.value)
      (fun _ => true) = false ∧
    (FieldCase.mk "rls" "tenant_id" "int").eval (fun _ => some RlsWildcard.ALL.value)
      (fun _ => false) = true ∧
    (FieldCase.mk "rls" "tenant_id" "int").eval (fun _ => some "42")
      (fun v => v == "42") = true :=
  ⟨(rls_subclause_case_precedence ⟨"rls", "tenant_id", "int"⟩ (fun _ => none)
      (fun _ => true)).2.1 rfl,
   (rls_subclause_case_precedence ⟨"rls", "tenant_id", "int"⟩ (fun _ => some "")
      (fun _ => true)).2.2.1 rfl,
   (rls_subclause_case_precedence ⟨"rls", "tenant_id", "int"⟩
      (fun _ => some RlsWildcard.NONE.value) (fun _ => true)).2.2.2.1 rfl,
   (rls_subclause_case_precedence ⟨"rls", "tenant_id", "int"⟩
      (fun _ => some RlsWildcard.ALL.value) (fun _ => false)).2.2.2.2.1 rfl,
   ((rls_subclause_case_precedence ⟨"rls", "tenant_id", "int"⟩ (fun _ => some "42")
      (fun v => v == "42")).2.2.2.2.2 "42" rfl (by decide) (by decide) (by decide)).trans
      (by decide)⟩

/-- C2: on a PostgreSQL backend with the bypass predicate true, the
middleware issues one parameterized SET per configured protected field, in
configured order, binding the ALL wildcard sentinel, and the context
resolver is never consulted. -/
theorem bypass_sets_all_fields_resolver_unused (s : DjangoRLSSettings)
    (resolverOutput : List (String × RLSValue)) :
    (process_request s "postgresql" true resolverOutput).executed
      = s.RLS_FIELDS.map
          (fun f => ExecCall.mk (setStmt s.SESSION_NS f) [RlsWildcard.ALL.value]) ∧
    (process_request s "postgresql" true resolverOutput).resolverCalled = false := by
  have hv : ¬("postgresql" ≠ "postgresql") := fun h => h rfl
  constructor
  · simp only [process_request, if_neg hv, if_pos trivial, List.filter_map]
    rw [show ((fun p => decide (p.1 ∈ s.RLS_FIELDS)) ∘
        (fun f => (f, RLSValue.wildcard RlsWildcard.ALL)))
      = (fun f => decide (f ∈ s.RLS_FIELDS)) from rfl]
    rw [List.filter_eq_self.mpr (fun a ha => by simpa using ha), List.map_map]
    rfl
  · simp [process_request, if_neg hv]

/-- C3: policy synthesis is a deterministic function of its inputs: two
runs on the same table name, selected fields with their types, and prefix
produce identical forward SQL and identical reverse SQL, and the whole
per-operation synthesis agrees with itself on every input. -/
theorem policy_synthesis_deterministic (db_table : String) (fields : List String)
    (ftypes : List (String × String)) (pfx : String) (s : DjangoRLSSettings)
    (app : String) (op : Operation) :
    (rlsPolicySql db_table (build_rls_using_clause fields ftypes pfx)).1
      = (rlsPolicySql db_table (build_rls_using_clause fields ftypes pfx)).1 ∧
    (rlsPolicySql db_table (build_rls_using_clause fields ftypes pfx)).2
      = (rlsPolicySql db_table (build_rls_using_clause fields ftypes pfx)).2 ∧
    mkRlsOp s app op = mkRlsOp s app op :=
  ⟨rfl, rfl, rfl⟩

/-- C5: the forward SQL consists of exactly drop-policy-if-exists,
create-policy FOR ALL with the predicate as both USING and WITH CHECK,
enable row level security, force row level security, in this order; the
reverse SQL consists of exactly un-force, disable, drop-policy-if-exists,
the inverse order. -/
theorem forward_reverse_sql_statement_order (db_table usingClause : String) :
    (rlsPolicySql db_table usingClause).1
      = String.intercalate "\n"
          [dropPolicySql (db_table ++ "_rls_policy") db_table,
           createPolicySql (db_table ++ "_rls_policy") db_table usingClause,
           enableRlsSql db_table,
           forceRlsSql db_table] ∧
    (rlsPolicySql db_table usingClause).2
      = String.intercalate "\n"
          [noForceRlsSql db_table,
           disableRlsSql db_table,
           dropPolicySql (db_table ++ "_rls_policy") db_table] :=
  ⟨rfl, rfl⟩

/-- C7: on PostgreSQL with bypass false the middleware issues exactly one
cursor.execute per resolver entry whose field survives validation; the
statement text is the fixed SET template with the %s placeholder, the
normalized value travelling only as the bound parameter; and normalization
stringifies UUIDs, maps None to the NONE sentinel, and passes wildcard
markers through as their sentinel literal. -/
theorem apply_normalizes_and_parameterizes (s : DjangoRLSSettings)
    (resolverOutput : List (String × RLSValue)) (u : String) (w : RlsWildcard) :
    (process_request s "postgresql" false resolverOutput).executed
      = (resolverOutput.filter (fun p => decide (p.1 ∈ s.RLS_FIELDS))).map
          (fun p => ExecCall.mk (setStmt s.SESSION_NS p.1) [dbSafeValue p.2]) ∧
    dbSafeValue (.uuidVal u) = u ∧
    dbSafeValue .null = RlsWildcard.NONE.value ∧
    dbSafeValue (.wildcard w) = w.value := by
  have hv : ¬("postgresql" ≠ "postgresql") := fun h => h rfl
  refine ⟨?_, rfl, rfl, rfl⟩
  simp [process_request, if_neg hv]

/-- Helper: injectOps distributes over list append. -/
theorem injectOps_append (s : DjangoRLSSettings) (app : String)
    (l₁ l₂ : List Operation) :
    injectOps s app (l₁ ++ l₂) = injectOps s app l₁ ++ injectOps s app l₂ := by
  induction l₁ with
  | nil => simp [injectOps]
  | cons a t ih =>
    cases h : mkRlsOp s app a with
    | none => simp [injectOps, h, ih]
    | some rop => simp [injectOps, h, ih]

/-- Helper: every original operation survives injection, in its original
relative order. -/
theorem sublist_injectOps (s : DjangoRLSSettings) (app : String) :
    ∀ ops : List Operation, ops.Sublist (injectOps s app ops) := by
  intro ops
  induction ops with
  | nil => simp [injectOps]
  | cons a t ih =>
    cases h : mkRlsOp s app a with
    | none =>
      simp only [injectOps, h]
      exact ih.cons₂ a
    | some rop =>
      simp only [injectOps, h]
      exact (ih.cons rop).cons₂ a

/-- C4: a synthesized RunSQL operation lands at the position immediately
after its originating CreateModel — the output decomposes as the image of
the prefix, then the CreateModel, then the RunSQL, then the image of the
suffix, so it is never appended at the end of the batch — and the original
operation sequence is a sublist of the output (original relative order
preserved, nothing deleted). -/
theorem rls_op_insertion_position (s : DjangoRLSSettings) (app : String)
    (pre post : List Operation) (op rop : Operation)
    (h : mkRlsOp s app op = some rop) :
    injectOps s app (pre ++ op :: post)
      = injectOps s app pre ++ op :: rop :: injectOps s app post ∧
    (pre ++ op :: post).Sublist (injectOps s app (pre ++ op :: post)) := by
  refine ⟨?_, sublist_injectOps s app _⟩
  rw [injectOps_append]
  simp [injectOps, h]

/-- Witness for C4 at a concrete batch: an unrelated operation, the
demonstration CreateModel, and another unrelated operation. -/
theorem rls_op_insertion_position_witness :
    injectOps sDemo "app" ([Operation.other 0] ++ demoOp :: [Operation.other 1])
      = injectOps sDemo "app" [Operation.other 0]
          ++ demoOp :: demoRop :: injectOps sDemo "app" [Operation.other 1] ∧
    ([Operation.other 0] ++ demoOp :: [Operation.other 1]).Sublist
      (injectOps sDemo "app" ([Operation.other 0] ++ demoOp :: [Operation.other 1])) :=
  rls_op_insertion_position sDemo "app" [Operation.other 0] [Operation.other 1]
    demoOp demoRop rfl

/-- Helper: looking up a key in an association list built by pairing each
element of a list with a function of itself returns that function value,
for any member of the list. -/
theorem lookup_pair_map {l : List String} {g : String → String} {f : String}
    (hf : f ∈ l) :
    (l.map (fun a => (a, g a))).lookup f = some (g f) := by
  induction l with
  | nil => cases hf
  | cons a t ih =>
    simp only [List.map_cons, List.lookup]
    by_cases h : f = a
    · subst h
      simp
    · have hb : (f == a) = false := by simpa using h
      rw [hb]
      exact ih (by
        rcases List.mem_cons.mp hf with h1 | h1
        · exact absurd h1 h
        · exact h1)

/-- C6: the candidate protected fields of a new table are the configured
candidate fields that occur among the table fields, in configured order;
when that intersection is empty no operation is produced; and otherwise the
synthesized operation carries the predicate joining, with AND, exactly one
rendered sub-clause per selected field, in that same order. -/
theorem candidate_selection_and_predicate (s : DjangoRLSSettings) (app name : String)
    (fields : List (String × FieldDef)) (dbT : Option String) :
    availableFields s fields
      = s.RLS_FIELDS.filter (fun f => decide (f ∈ fields.map Prod.fst)) ∧
    (availableFields s fields = [] →
      mkRlsOp s app (.createModel name fields dbT) = none) ∧
    (availableFields s fields ≠ [] →
      mkRlsOp s app (.createModel name fields dbT)
        = some (.runSQL
            (rlsPolicySql (dbTableName app name dbT) (String.intercalate " AND\n"
              ((availableFields s fields).map
                (fun f => (FieldCase.mk s.SESSION_NS f (fieldSqlType fields f)).render)))).1
            (rlsPolicySql (dbTableName app name dbT) (String.intercalate " AND\n"
              ((availableFields s fields).map
                (fun f => (FieldCase.mk s.SESSION_NS f (fieldSqlType fields f)).render)))).2)) := by
  refine ⟨rfl, ?_, ?_⟩
  · intro h
    simp [mkRlsOp, h]
  · intro h
    have hne : (availableFields s fields).isEmpty = false := by
      simpa [List.isEmpty_iff] using h
    have hmap :
        (availableFields s fields).map (fun f => (FieldCase.mk s.SESSION_NS f
            (((fieldTypes fields (availableFields s fields)).lookup f).getD "text")).render)
          = (availableFields s fields).map
              (fun f => (FieldCase.mk s.SESSION_NS f (fieldSqlType fields f)).render) :=
      List.map_congr_left (fun a ha => by
        rw [show fieldTypes fields (availableFields s fields)
              = (availableFields s fields).map (fun f => (f, fieldSqlType fields f)) from rfl,
            lookup_pair_map ha, Option.getD_some])
    show (if (availableFields s fields).isEmpty then none else _) = _
    rw [hne, if_neg Bool.false_ne_true, Option.some_inj]
    show Operation.runSQL
        (rlsPolicySql (dbTableName app name dbT)
          (build_rls_using_clause (availableFields s fields)
            (fieldTypes fields (availableFields s fields)) s.SESSION_NS)).1
        (rlsPolicySql (dbTableName app name dbT)
          (build_rls_using_clause (availableFields s fields)
            (fieldTypes fields (availableFields s fields)) s.SESSION_NS)).2 = _
    rw [show build_rls_using_clause (availableFields s fields)
          (fieldTypes fields (availableFields s fields)) s.SESSION_NS
        = String.intercalate " AND\n"
            ((availableFields s fields).map (fun f => (FieldCase.mk s.SESSION_NS f
              (((fieldTypes fields (availableFields s fields)).lookup f).getD "text")).render))
      from rfl, hmap]

/-- Witness for C6: a table with no candidate field yields no operation; the
demonstration table with two candidate fields yields the RunSQL operation
with the two-clause predicate. -/
theorem candidate_selection_and_predicate_witness :
    mkRlsOp sDemo "app" (.createModel "Plain" [("id", ⟨"BigAutoField"⟩)] none) = none ∧
    mkRlsOp sDemo "app" (.createModel "Doc" demoFields none)
      = some (.runSQL
          (rlsPolicySql (dbTableName "app" "Doc" none) (String.intercalate " AND\n"
            ((availableFields sDemo demoFields).map
              (fun f => (FieldCase.mk sDemo.SESSION_NS f (fieldSqlType demoFields f)).render)))).1
          (rlsPolicySql (dbTableName "app" "Doc" none) (String.intercalate " AND\n"
            ((availableFields sDemo demoFields).map
              (fun f => (FieldCase.mk sDemo.SESSION_NS f (fieldSqlType demoFields f)).render)))).2) :=
  ⟨(candidate_selection_and_predicate sDemo "app" "Plain"
      [("id", ⟨"BigAutoField"⟩)] none).2.1 (by decide),
   (candidate_selection_and_predicate sDemo "app" "Doc" demoFields none).2.2 (by decide)⟩

/-- C8: when the resolver output names fields outside the configured
protected-field set, the middleware emits a warning naming exactly those
unexpected fields, while the session-variable assignments are issued only
for the entries whose field is configured — the unexpected entries are
dropped and the request completes with its normal result. -/
theorem unexpected_fields_dropped_with_warning (s : DjangoRLSSettings)
    (resolverOutput : List (String × RLSValue))
    (h : (resolverOutput.map Prod.fst).filter (fun f => decide (f ∉ s.RLS_FIELDS)) ≠ []) :
    (process_request s "postgresql" false resolverOutput).warnedUnexpected
      = some ((resolverOutput.map Prod.fst).filter (fun f => decide (f ∉ s.RLS_FIELDS))) ∧
    (process_request s "postgresql" false resolverOutput).executed
      = (resolverOutput.filter (fun p => decide (p.1 ∈ s.RLS_FIELDS))).map
          (fun p => ExecCall.mk (setStmt s.SESSION_NS p.1) [dbSafeValue p.2]) := by
  have hv : ¬("postgresql" ≠ "postgresql") := fun h => h rfl
  have hne : ((resolverOutput.map Prod.fst).filter
      (fun f => decide (f ∉ s.RLS_FIELDS))).isEmpty = false := by
    simpa [List.isEmpty_iff] using h
  constructor
  · simp only [process_request, if_neg hv, if_false, hne, Bool.false_eq_true]
  · simp [process_request, if_neg hv]

/-- Witness for C8: a resolver output with one configured and one
unexpected field on the demonstration configuration. -/
theorem unexpected_fields_dropped_with_warning_witness :
    (process_request sDemo "postgresql" false
        [("tenant_id", RLSValue.strVal "7"), ("bogus", RLSValue.null)]).warnedUnexpected
      = some ["bogus"] ∧
    (process_request sDemo "postgresql" false
        [("tenant_id", RLSValue.strVal "7"), ("bogus", RLSValue.null)]).executed
      = [ExecCall.mk "SET rls.tenant_id = %s" ["7"]] := by
  have h := unexpected_fields_dropped_with_warning sDemo
    [("tenant_id", RLSValue.strVal "7"), ("bogus", RLSValue.null)] (by decide)
  exact ⟨h.1.trans (by decide), h.2.trans (by decide)⟩

/-- C9 counterexample: DJANGO_RLS bound to the Python value False — a
supplied configuration object of the wrong type — does not make startup
fail: the walrus-guarded truthiness test routes every falsy value to the
missing-configuration branch, which warns and applies the defaults. -/
theorem settings_falsy_wrong_type_does_not_fail :
    django_rls_settings_load (some (.otherType false "bool")) = .ok true {} ∧
    (django_rls_settings_load (some (.otherType false "bool"))).isError = false := by
  exact ⟨rfl, rfl⟩

/-- C9 amended: startup validation raises exactly when the supplied
configuration value is truthy and of the wrong type, or the supplied
settings enable the dedicated migration user while the migration username
or password is absent (None or empty); an absent — or falsy supplied —
configuration instead produces the non-fatal warning and the defaults. -/
theorem settings_validation_characterization (cfg : Option PyConfigValue) :
    ((django_rls_settings_load cfg).isError = true ↔
      ((∃ tn, cfg = some (.otherType true tn)) ∨
       (∃ s, cfg = some (.rls s) ∧ s.USE_DB_MIGRATION_USER = true ∧
         (falsyStr s.MIGRATION_USER = true ∨ falsyStr s.MIGRATION_PASSWORD = true)))) ∧
    (pyTruthy cfg = false → django_rls_settings_load cfg = .ok true {}) := by
  constructor
  · match cfg with
    | none =>
      simp [django_rls_settings_load, pyTruthy, SettingsOutcome.isError]
    | some (.otherType t tn) =>
      cases t with
      | false =>
        simp [django_rls_settings_load, pyTruthy, SettingsOutcome.isError]
      | true =>
        simp [django_rls_settings_load, pyTruthy, SettingsOutcome.isError]
    | some (.rls s) =>
      rw [show django_rls_settings_load (some (.rls s))
          = (if (s.USE_DB_MIGRATION_USER
                && (falsyStr s.MIGRATION_USER || falsyStr s.MIGRATION_PASSWORD)) = true
             then SettingsOutcome.error
               "USE_DB_MIGRATION_USER is True, but MIGRATION_USER or MIGRATION_PASSWORD is not set"
             else .ok false s) from rfl,
        apply_ite SettingsOutcome.isError]
      simp [SettingsOutcome.isError, Bool.and_eq_true, Bool.or_eq_true]
  · intro hfalse
    match cfg with
    | none => rfl
    | some (.otherType t tn) =>
      have : t = false := by simpa [pyTruthy] using hfalse
      subst this
      rfl
    | some (.rls s) => simp [pyTruthy] at hfalse

/-- Witness for C9 at concrete inputs: an absent configuration loads the
defaults with the warning, and supplied settings enabling the migration
user without credentials make loading fail. -/
theorem settings_validation_characterization_witness :
    django_rls_settings_load none = .ok true {} ∧
    (django_rls_settings_load (some (.rls { USE_DB_MIGRATION_USER := true }))).isError
      = true :=
  ⟨(settings_validation_characterization none).2 rfl,
   (settings_validation_characterization
      (some (.rls { USE_DB_MIGRATION_USER := true }))).1.mpr
     (Or.inr ⟨{ USE_DB_MIGRATION_USER := true }, rfl, rfl, Or.inl rfl⟩)⟩

/-- Helper: for a fixed prefix the SET statement text determines the field
name. -/
theorem setStmt_inj {pfx a b : String} (h : setStmt pfx a = setStmt pfx b) : a = b := by
  have hd : ("SET " ++ pfx ++ "." ++ a ++ " = %s").data
      = ("SET " ++ pfx ++ "." ++ b ++ " = %s").data := by
    rw [show ("SET " ++ pfx ++ "." ++ a ++ " = %s") = setStmt pfx a from rfl,
        show ("SET " ++ pfx ++ "." ++ b ++ " = %s") = setStmt pfx b from rfl, h]
  simp only [String.data_append] at hd
  exact String.ext (List.append_cancel_left (List.append_cancel_right hd))

/-- C10: on the bypass-false PostgreSQL path, a configured protected field
absent from the resolver output receives no session-variable assignment at
all: the number of executed statements equal to the SET statement of that
field is zero (its session variable keeps its prior state instead of being
set to the NONE sentinel). -/
theorem absent_field_receives_no_assignment (s : DjangoRLSSettings)
    (resolverOutput : List (String × RLSValue)) (f : String)
    (hf : f ∈ s.RLS_FIELDS) (habs : f ∉ resolverOutput.map Prod.fst) :
    (process_request s "postgresql" false resolverOutput).executed.countP
      (fun c => c.stmt == setStmt s.SESSION_NS f) = 0 := by
  have hv : ¬("postgresql" ≠ "postgresql") := fun h => h rfl
  have hexec : (process_request s "postgresql" false resolverOutput).executed
      = (resolverOutput.filter (fun p => decide (p.1 ∈ s.RLS_FIELDS))).map
          (fun p => ExecCall.mk (setStmt s.SESSION_NS p.1) [dbSafeValue p.2]) := by
    simp [process_request, if_neg hv]
  rw [hexec]
  refine List.countP_eq_zero.mpr ?_
  intro c hc
  rcases List.mem_map.mp hc with ⟨p, hp, rfl⟩
  have hp1 : p ∈ resolverOutput := List.mem_of_mem_filter hp
  intro hbeq
  have : setStmt s.SESSION_NS p.1 = setStmt s.SESSION_NS f := by
    simpa using hbeq
  exact habs (List.mem_map.mpr ⟨p, hp1, setStmt_inj this⟩)

/-- Witness for C10: with the demonstration configuration, a resolver
output naming only tenant_id leaves owner_id without any assignment. -/
theorem absent_field_receives_no_assignment_witness :
    (process_request sDemo "postgresql" false
        [("tenant_id", RLSValue.strVal "7")]).executed.countP
      (fun c => c.stmt == setStmt sDemo.SESSION_NS "owner_id") = 0 :=
  absent_field_receives_no_assignment sDemo [("tenant_id", RLSValue.strVal "7")]
    "owner_id" (by decide) (by decide)
